import Mathlib

/-
Verification development for the harmonize-ds repository (a Python client
library for heterogeneous geospatial web services: WFS, WCS and STAC).

The definitions below are a shallow embedding of the source files under
harmonize_ds/.  Network transport, XML parsing and JSON decoding are
external collaborators of the source code; they are embedded as explicit
inputs (oracles / already-decoded values), so every adapter function is a
total computable Lean function over those inputs.  Python exceptions are
embedded as an explicit error type carried by Except; Python dictionaries
appear as structures whose fields are the keys the code reads.
-/

set_option maxRecDepth 4096

/-- Python-level failures raised by the adapters (taxonomy of section 7 of
the design document).  The constructor unsupportedGeometry embeds the
exception raised by WFS.get_dataset on a geometry kind outside the
supported set. -/
inductive PyError where
  | runtimeError (msg : String)
  | valueError
  | attributeError
  | indexError
  | typeError
  | keyError
  | unsupportedGeometry
  | parseError (msg : String)
deriving DecidableEq

/-- Embedding of the Python expression sep in s (character membership). -/
def pyContainsChar (sep : Char) : List Char → Bool
  | [] => false
  | c :: cs => c = sep || pyContainsChar sep cs

/-- Embedding of the Python str.split method for a one-character separator:
splitting the empty string yields one empty part, and every occurrence of
the separator starts a new part. -/
def pySplit (sep : Char) : List Char → List (List Char)
  | [] => [[]]
  | c :: cs =>
    if c = sep then [] :: pySplit sep cs
    else
      match pySplit sep cs with
      | [] => [[c]]
      | h :: t => (c :: h) :: t

/-- String-level wrapper of pySplit. -/
def strSplit (sep : Char) (s : String) : List String :=
  (pySplit sep s.data).map String.mk

/-- Embedding of the Python sep.join method. -/
def pyJoin (sep : String) : List String → String
  | [] => ""
  | [c] => c
  | c :: cs => c ++ sep ++ pyJoin sep cs

/-- The filter dictionary accepted by the WFS data-fetch path; the fields
are the keys a caller can place in it.  The code of build_cql_filter reads
only the date key. -/
structure WfsFilter where
  date : Option String
  bbox : Option String
deriving DecidableEq

/-- Translation of WFS.build_cql_filter (harmonize_ds/sources/wfs.py).
A clause list is built, then joined with AND.  Only the date key is
consulted: a value with a slash is unpacked by str.split into exactly two
parts (a Python ValueError if the split does not have exactly two parts)
and becomes a BETWEEN clause, otherwise an equality clause. -/
def WFS.build_cql_filter (filter : WfsFilter) : Except PyError String :=
  match filter.date with
  | none => .ok (pyJoin " AND " [])
  | some date_value =>
    if pyContainsChar '/' date_value.data then
      match strSplit '/' date_value with
      | [s, e] =>
        .ok (pyJoin " AND " ["date BETWEEN \x27" ++ s ++ "\x27 AND \x27" ++ e ++ "\x27"])
      | _ => .error .valueError
    else
      .ok (pyJoin " AND " ["date = \x27" ++ date_value ++ "\x27"])

/-- Decoded JSON values, used for feature properties and the crs member of
a decoded GetFeature page. -/
inductive Json where
  | null
  | str (s : String)
  | num (n : Int)
  | arr (xs : List Json)
  | obj (fields : List (String × Json))

/-- GeoJSON coordinate values as produced by the JSON decoder: nested
arrays of numbers. -/
inductive Coords where
  | num (n : Int)
  | arr (cs : List Coords)

/-- Geometry values produced by the shapely constructors the source calls.
The constructors are external collaborators, so they are embedded as plain
wrappers around the coordinate data the source passes to them.  point is
the two-argument Point call, pointSeq the one-argument Point call used for
MultiPoint members. -/
inductive Geom where
  | point (x y : Coords)
  | pointSeq (c : Coords)
  | multiPoint (pts : List Geom)
  | lineString (c : Coords)
  | polygon (ring : Coords)
  | multiPolygon (polys : List Geom)

/-- The geometry member of a raw GeoJSON feature. -/
structure RawGeometry where
  type : String
  coordinates : Coords

/-- A raw feature of a decoded GetFeature page. -/
structure RawFeature where
  geometry : RawGeometry
  properties : List (String × Json)

/-- A flattened record: the geometry value stored under the geom key plus
the (bbox-stripped) properties merged beside it. -/
structure FlatFeature where
  geom : Geom
  props : List (String × Json)

/-- A decoded GetFeature page body.  The features key defaults to the
empty list when absent (data.get); the crs key is read by plain indexing,
so its absence is a Python KeyError, hence the Option. -/
structure WfsPage where
  features : List RawFeature
  crs : Option Json

/-- Outcome of one page request as seen by the pagination loop: a decoded
page, a JSON decode failure of a 2xx body, or an HTTP-level failure raised
by WFS._get. -/
inductive ServerResp where
  | ok (page : WfsPage)
  | badJson (msg : String)
  | httpError (msg : String)

/-- The assembled positional-column table: one row per flattened feature,
with the coordinate reference system attached by set_geometry. -/
structure GeoDataFrame where
  rows : List FlatFeature
  crs : String

/-- Translation of the per-polygon inner loop of the MultiPolygon branch:
each member of the coordinate array must itself be an array (of rings),
and every ring becomes its own Polygon value. -/
def WFS.polysToPolygons : List Coords → Except PyError (List Geom)
  | [] => .ok []
  | .arr rings :: rest =>
    match WFS.polysToPolygons rest with
    | .error e => .error e
    | .ok gs => .ok (rings.map Geom.polygon ++ gs)
  | .num _ :: _ => .error .typeError

/-- Translation of the geometry dispatch of WFS.get_dataset: the chain of
comparisons of item geometry type, in source order, ending in the
unsupported-geometry exception.  Indexing coordinates[0] or iterating a
non-array coordinate value is a Python IndexError / TypeError, embedded as
the corresponding error constructors. -/
def WFS.makeGeom (ty : String) (coords : Coords) : Except PyError Geom :=
  if ty = "Point" then
    match coords with
    | .arr (c0 :: c1 :: _) => .ok (.point c0 c1)
    | _ => .error .indexError
  else if ty = "MultiPoint" then
    match coords with
    | .arr pts => .ok (.multiPoint (pts.map Geom.pointSeq))
    | .num _ => .error .typeError
  else if ty = "LineString" then
    .ok (.lineString coords)
  else if ty = "MultiPolygon" then
    match coords with
    | .arr polys =>
      match WFS.polysToPolygons polys with
      | .error e => .error e
      | .ok gs => .ok (.multiPolygon gs)
    | .num _ => .error .typeError
  else if ty = "Polygon" then
    match coords with
    | .arr (r0 :: _) => .ok (.polygon r0)
    | _ => .error .indexError
  else
    .error .unsupportedGeometry

/-- Flattening of one raw feature: build the geometry value, delete the
bbox key of the properties when present, and merge the rest beside the
geom entry. -/
def WFS.flattenFeature (item : RawFeature) : Except PyError FlatFeature :=
  match WFS.makeGeom item.geometry.type item.geometry.coordinates with
  | .error e => .error e
  | .ok g => .ok ⟨g, item.properties.filter (fun kv => kv.1 != "bbox")⟩

/-- The flattening loop over all collected features: sequential, aborted
by the first failure, so no partial table survives an error. -/
def WFS.flattenAll : List RawFeature → Except PyError (List FlatFeature)
  | [] => .ok []
  | f :: fs =>
    match WFS.flattenFeature f with
    | .error e => .error e
    | .ok ff =>
      match WFS.flattenAll fs with
      | .error e => .error e
      | .ok rest => .ok (ff :: rest)

/-- Translation of the WFS_FORMATS lookup with default application/json. -/
def WFS.formatOf (output : String) : String :=
  let o := output.toLower
  if o = "shp" then "shape-zip"
  else if o = "kml" then "kml"
  else if o = "csv" then "csv"
  else if o = "json" then "application/json"
  else "application/json"

/-- Construction of the GetFeature base URL of WFS.get_dataset: output
format, srsName, the separate bbox argument, and the cql_filter produced
by build_cql_filter when the filter dictionary is truthy and the produced
expression is nonempty. -/
def WFS.baseURL (url ft_name output : String) (epsg : Int)
    (bbox : Option String) (filter : Option WfsFilter) : Except PyError String :=
  let base := url ++ "/wfs?service=wfs&version=2.0.0&request=GetFeature&typeName=" ++ ft_name
      ++ "&outputFormat=" ++ WFS.formatOf output ++ "&srsName=EPSG:" ++ toString epsg
  let base1 :=
    match bbox with
    | some b => base ++ "&bbox=" ++ b
    | none => base
  match filter with
  | none => .ok base1
  | some f =>
    match WFS.build_cql_filter f with
    | .error e => .error e
    | .ok cql => if cql = "" then .ok base1 else .ok (base1 ++ "&cql_filter=" ++ cql)

/-- The pagination loop of WFS.get_dataset.  The server oracle maps the
startIndex query parameter of the issued page request to the outcome of
fetching and decoding that page; the list of issued start offsets is
accumulated as the request log.  One unit of fuel is one loop iteration
(the Python loop has no bound, so fuel exhaustion returns none).  Each
round, a page is requested at the current offset; an empty feature list
breaks the loop; otherwise the features are accumulated, the max_features
bound is checked with Python truthiness (a None or zero bound never
stops), and the offset advances by the count actually received. -/
def WFS.fetchPages (server : Nat → ServerResp) (page_size : Nat)
    (max_features : Option Nat) :
    Nat → Nat → Nat → List RawFeature → List Nat →
    Option (Except PyError (List RawFeature × WfsPage × List Nat))
  | 0, _, _, _, _ => none
  | fuel + 1, start_index, total_received, acc, reqs =>
    let reqs1 := reqs ++ [start_index]
    match server start_index with
    | .httpError msg => some (.error (.runtimeError msg))
    | .badJson msg => some (.error (.runtimeError ("Falha ao decodificar JSON: " ++ msg)))
    | .ok data =>
      let features := data.features
      let received := features.length
      if features.isEmpty then
        some (.ok (acc, data, reqs1))
      else
        let acc1 := acc ++ features
        let total1 := total_received + received
        let hitMax : Bool :=
          match max_features with
          | some m => decide (m ≠ 0) && decide (m ≤ total1)
          | none => false
        if hitMax then some (.ok (acc1, data, reqs1))
        else WFS.fetchPages server page_size max_features fuel
          (start_index + received) total1 acc1 reqs1

/-- Translation of WFS.get_dataset (harmonize_ds/sources/wfs.py): reject a
missing feature name, build the base URL, run the pagination loop, apply
the max_features truncation (Python truthiness again), flatten every
collected feature, read the crs key of the last received page (a KeyError
when absent), and assemble the table with crs EPSG:{epsg}.  The returned
pair carries the request log of the loop beside the table. -/
def WFS.get_dataset (server : Nat → ServerResp) (url ft_name : String)
    (max_features : Option Nat) (bbox : Option String)
    (filter : Option WfsFilter) (output : String) (page_size : Nat)
    (epsg : Int) (fuel : Nat) :
    Option (Except PyError (GeoDataFrame × List Nat)) :=
  if ft_name = "" then some (.error .valueError)
  else
    match WFS.baseURL url ft_name output epsg bbox filter with
    | .error e => some (.error e)
    | .ok _base =>
      match WFS.fetchPages server page_size max_features fuel 0 0 [] [] with
      | none => none
      | some (.error e) => some (.error e)
      | some (.ok (all0, data, reqs)) =>
        let all_features :=
          match max_features with
          | some m => if m ≠ 0 then all0.take m else all0
          | none => all0
        match WFS.flattenAll all_features with
        | .error e => some (.error e)
        | .ok rows =>
          match data.crs with
          | none => some (.error .keyError)
          | some _ => some (.ok (⟨rows, "EPSG:" ++ toString epsg⟩, reqs))

/-- The geometry kinds handled by the dispatch of WFS.get_dataset, in
source order. -/
def WFS.supportedGeomTypes : List String :=
  ["Point", "MultiPoint", "LineString", "MultiPolygon", "Polygon"]

/-- Shape of the coordinate value under which the adapter code itself (its
indexing and iteration) cannot fail for the given geometry kind. -/
def WFS.wellFormedCoords (ty : String) (c : Coords) : Bool :=
  if ty = "Point" then
    match c with
    | .arr (_ :: _ :: _) => true
    | _ => false
  else if ty = "MultiPoint" then
    match c with
    | .arr _ => true
    | _ => false
  else if ty = "LineString" then true
  else if ty = "MultiPolygon" then
    match c with
    | .arr polys => polys.all (fun p => match p with | .arr _ => true | .num _ => false)
    | _ => false
  else if ty = "Polygon" then
    match c with
    | .arr (_ :: _) => true
    | _ => false
  else false

/-- A raw feature whose geometry kind is supported and whose coordinate
value is well formed for that kind. -/
def GoodFeature (f : RawFeature) : Prop :=
  f.geometry.type ∈ WFS.supportedGeomTypes ∧
    WFS.wellFormedCoords f.geometry.type f.geometry.coordinates = true

instance : DecidablePred GoodFeature := fun f => by
  unfold GoodFeature; infer_instance

/-- One entry of the properties list of a DescribeFeatureType response;
localType and type are read with dict.get, so an absent key is None. -/
structure FtProperty where
  name : String
  localType : Option String
  type : Option String
deriving DecidableEq

/-- One entry of the attributes list assembled by WFS.describe. -/
structure FtAttribute where
  name : String
  localtype : Option String
  type : Option String
deriving DecidableEq

/-- The attribute record WFS.describe builds from one property. -/
def WFS.attrOf (p : FtProperty) : FtAttribute :=
  ⟨p.name, p.localType, p.type⟩

/-- Membership of the declared type in the supported_geometries set of
WFS.describe; a None type is never a member. -/
def WFS.isGeometryProp (p : FtProperty) : Bool :=
  match p.type with
  | some t => t == "gml:MultiPolygon" || t == "gml:Point" || t == "gml:Polygon"
  | none => false

/-- Translation of the attribute loop of WFS.describe: every property is
appended to the attribute list, and whenever the declared type is in the
supported geometry set, the geometry entry of the record is assigned to
that attribute (overwriting any earlier assignment). -/
def WFS.describeAttributes (props : List FtProperty) :
    List FtAttribute × Option FtAttribute :=
  props.foldl
    (fun acc p =>
      let attr := WFS.attrOf p
      (acc.1 ++ [attr], if WFS.isGeometryProp p then some attr else acc.2))
    ([], none)

/-- A schema with two geometry-typed attributes, used to decide which of
them WFS.describe reports as the geometry attribute. -/
def twoGeomProps : List FtProperty :=
  [⟨"geom_a", some "Point", some "gml:Point"⟩,
   ⟨"geom_b", some "Polygon", some "gml:Polygon"⟩]

/-- The three adapter classes, each holding the source id and base URL
fixed at construction. -/
inductive SourceAdapter where
  | wfs (source_id url : String)
  | wcs (source_id url : String)
  | stac (source_id url : String)
deriving DecidableEq

/-- The source id fixed at adapter construction. -/
def SourceAdapter.sid : SourceAdapter → String
  | .wfs s _ => s
  | .wcs s _ => s
  | .stac s _ => s

/-- Modelled from the spec: the abstract base class Source of
harmonize_ds/sources/base.py is not present under src/.  The design
document describes the adapter capability set as collections, describe,
get and get_type, and nowhere gives the base class a get_dataset method.
Python attribute lookup of get_dataset on an adapter therefore succeeds
only on the WFS class, which is the only class under src/ defining it;
on the WCS and STAC classes the lookup is an AttributeError. -/
def SourceAdapter.get_dataset_dispatch (ds : SourceAdapter)
    (server : Nat → ServerResp) (collection_id : String)
    (filter : Option WfsFilter) (fuel : Nat) :
    Option (Except PyError (GeoDataFrame × List Nat)) :=
  match ds with
  | .wfs _ u => WFS.get_dataset server u collection_id none none filter "json" 1000 4326 fuel
  | .wcs _ _ => some (.error .attributeError)
  | .stac _ _ => some (.error .attributeError)

/-- Translation of CollectionClient.get (harmonize_ds/harmonize.py): the
bound collection id is supplied by the facade, and the call is dispatched
to the get_dataset attribute of the bound adapter. -/
def CollectionClient.get (ds : SourceAdapter) (collection_id : String)
    (server : Nat → ServerResp) (filter : Option WfsFilter) (fuel : Nat) :
    Option (Except PyError (GeoDataFrame × List Nat)) :=
  ds.get_dataset_dispatch server collection_id filter fuel

/-- Translation of DataSourceManager.get_datasource_by_id: a linear scan
of the loaded adapter list returning the first adapter whose source id
matches, or None instead of raising. -/
def DataSourceManager.get_datasource_by_id
    (datasources : List SourceAdapter) (id : String) : Option SourceAdapter :=
  match datasources with
  | [] => none
  | ds :: rest =>
    if ds.sid = id then some ds
    else DataSourceManager.get_datasource_by_id rest id

/-- One entry of a collections listing: the id key and the collection key
of the dictionary each adapter builds. -/
structure CollectionRef where
  id : String
  collection : String
deriving DecidableEq

/-- Translation of the WFS collections property: one entry per feature
type name returned by list_features, each tagged with the source id of
the adapter. -/
def WFS.collections (source_id : String) (layers : List String) : List CollectionRef :=
  layers.map (fun layer => ⟨source_id, layer⟩)

/-- Translation of the WCS collections property over the coverage ids
returned by list_image. -/
def WCS.collections (source_id : String) (layers : List String) : List CollectionRef :=
  layers.map (fun layer => ⟨source_id, layer⟩)

/-- Translation of the STAC collections property over the collection ids
of the bound service session. -/
def STAC.collections (source_id : String) (ids : List String) : List CollectionRef :=
  ids.map (fun cid => ⟨source_id, cid⟩)

/-- A parsed XML element: tag, text content and child elements.  Namespace
resolution of the parsers is embedded by using the qualified tag strings
the source code searches for. -/
inductive XmlNode where
  | elem (tag : String) (text : Option String) (children : List XmlNode)

/-- The tag of an element. -/
def XmlNode.tag : XmlNode → String
  | .elem t _ _ => t

/-- The text of an element. -/
def XmlNode.text : XmlNode → Option String
  | .elem _ tx _ => tx

/-- The child elements of an element. -/
def XmlNode.children : XmlNode → List XmlNode
  | .elem _ _ cs => cs

/-- All elements with the given tag anywhere below the nodes of the list,
in document order (an element before its own descendants). -/
def findallDescList (tag : String) : List XmlNode → List XmlNode
  | [] => []
  | .elem t tx cs :: rest =>
    (if t == tag then [XmlNode.elem t tx cs] else [])
      ++ findallDescList tag cs ++ findallDescList tag rest

/-- Embedding of findall with a .//tag path: all matching descendants of
the root. -/
def findallDesc (tag : String) (root : XmlNode) : List XmlNode :=
  findallDescList tag root.children

/-- Embedding of find with a direct child tag path. -/
def XmlNode.findChild (n : XmlNode) (tag : String) : Option XmlNode :=
  n.children.find? (fun c => c.tag == tag)

/-- Translation of WCS.list_image (harmonize_ds/sources/wcs.py).  The
fetched body and the XML parser are inputs; the try block covers the fetch
and the parse but catches only the XML syntax error, which is turned into
an empty list.  On a parsed document, every CoverageSummary descendant
with a CoverageId child holding truthy text contributes that text. -/
def WCS.list_image (fetched : Except PyError String)
    (parse : String → Except String XmlNode) : Except PyError (List String) :=
  match fetched with
  | .error e => .error e
  | .ok doc =>
    match parse doc with
    | .error _ => .ok []
    | .ok xmldoc =>
      .ok ((findallDesc "wcs:CoverageSummary" xmldoc).filterMap (fun cs =>
        match cs.findChild "wcs:CoverageId" with
        | none => none
        | some el =>
          match el.text with
          | some t => if t == "" then none else some t
          | none => none))

/-- Translation of WFS.list_features (harmonize_ds/sources/wfs.py): the
minidom parse failure propagates as an exception, unlike the lenient WCS
path.  Each FeatureType element contributes the node value of the first
child of its first child node (indexing an empty child list is an
IndexError, a missing text child an AttributeError). -/
def WFS.list_features (fetched : Except PyError String)
    (parse : String → Except String XmlNode) : Except PyError (List String) :=
  match fetched with
  | .error e => .error e
  | .ok doc =>
    match parse doc with
    | .error e => .error (.parseError e)
    | .ok xmldoc =>
      (findallDesc "FeatureType" xmldoc).mapM (fun s =>
        match s.children.head? with
        | none => Except.error PyError.indexError
        | some nameEl =>
          match nameEl.text with
          | none => Except.error PyError.attributeError
          | some t => Except.ok t)

/-- The filter dictionary accepted by WCS.get; the fields are the keys the
code reads. -/
structure WcsFilter where
  bbox : Option (List Int)
  width : Option Int
  height : Option Int
  time : Option String
  format : Option String

/-- Translation of the URL construction of WCS.get
(harmonize_ds/sources/wcs.py): coverage id, target CRS, then bbox (comma
joined), width and height (only when both present), time and format. -/
def WCS.getURL (self_url collection_id : String) (filter : Option WcsFilter)
    (srid : Int) : String :=
  let base := self_url ++ "?service=WCS&version=2.0.1&request=GetCoverage&coverageId="
      ++ collection_id ++ "&crs=EPSG:" ++ toString srid
  match filter with
  | none => base
  | some f =>
    let base1 :=
      match f.bbox with
      | some bs => base ++ "&bbox=" ++ pyJoin "," (bs.map toString)
      | none => base
    let base2 :=
      match f.width, f.height with
      | some w, some h => base1 ++ "&width=" ++ toString w ++ "&height=" ++ toString h
      | _, _ => base1
    let base3 :=
      match f.time with
      | some t => base2 ++ "&time=" ++ t
      | none => base2
    match f.format with
    | some fm => base3 ++ "&format=" ++ fm
    | none => base3

/-- A network-instrumented computation: given the URL-to-body oracle of
the transport, it yields a value and the list of URLs it fetched.  The
adapter operations that perform requests consult the oracle and log them;
a pure operation consults nothing and logs nothing. -/
def NetTrace (α : Type) : Type := (String → String) → α × List String

/-- Translation of WCS.get as a network-instrumented computation: its body
only builds the GetCoverage URL, so it never consults the transport and
its request log is empty. -/
def WCS.get (self_url collection_id : String) (filter : Option WcsFilter)
    (srid : Int) : NetTrace String :=
  fun _server => (WCS.getURL self_url collection_id filter srid, [])

/-- A well-formed Point feature used as page content for the concrete
pagination witness. -/
def ptFeature : RawFeature :=
  ⟨⟨"Point", .arr [.num 0, .num 1]⟩, []⟩

/-- A page of n copies of the Point feature. -/
def pageOf (n : Nat) : WfsPage :=
  ⟨List.replicate n ptFeature, some .null⟩

/-- A concrete page server returning pages of sizes 1000, 1000, 437 and
then 0 at the offsets the pagination loop reaches. -/
def demoServer (start : Nat) : ServerResp :=
  if start = 0 then .ok (pageOf 1000)
  else if start = 1000 then .ok (pageOf 1000)
  else if start = 2000 then .ok (pageOf 437)
  else .ok ⟨[], some .null⟩

/-- A feature whose geometry kind is outside the supported set. -/
def triFeature : RawFeature :=
  ⟨⟨"Triangle", .arr [.num 0, .num 1]⟩, []⟩

/-- A concrete page server whose first page holds the Triangle feature and
whose second page is empty. -/
def triServer (start : Nat) : ServerResp :=
  if start = 0 then .ok ⟨[triFeature], some .null⟩
  else .ok ⟨[], some .null⟩

theorem pyContainsChar_append_sep (sep : Char) (l1 l2 : List Char) :
    pyContainsChar sep (l1 ++ sep :: l2) = true := by
  induction l1 with
  | nil => simp [pyContainsChar]
  | cons c cs ih => simp [pyContainsChar, ih]

theorem pySplit_no_sep (sep : Char) (l : List Char)
    (h : pyContainsChar sep l = false) : pySplit sep l = [l] := by
  induction l with
  | nil => rfl
  | cons c cs ih =>
    simp only [pyContainsChar, Bool.or_eq_false_iff] at h
    have hc : ¬(c = sep) := by simpa using h.1
    simp [pySplit, hc, ih h.2]

theorem pySplit_append_sep (sep : Char) (l1 l2 : List Char)
    (h : pyContainsChar sep l1 = false) :
    pySplit sep (l1 ++ sep :: l2) = l1 :: pySplit sep l2 := by
  induction l1 with
  | nil => simp [pySplit]
  | cons c cs ih =>
    simp only [pyContainsChar, Bool.or_eq_false_iff] at h
    have hc : ¬(c = sep) := by simpa using h.1
    simp [pySplit, hc, ih h.2]

theorem build_cql_single (bb : Option String) (D : String)
    (h : pyContainsChar '/' D.data = false) :
    WFS.build_cql_filter ⟨some D, bb⟩ = .ok ("date = \x27" ++ D ++ "\x27") := by
  simp [WFS.build_cql_filter, h, pyJoin]

theorem build_cql_range (bb : Option String) (D1 D2 : String)
    (h1 : pyContainsChar '/' D1.data = false)
    (h2 : pyContainsChar '/' D2.data = false) :
    WFS.build_cql_filter ⟨some (D1 ++ "/" ++ D2), bb⟩ =
      .ok ("date BETWEEN \x27" ++ D1 ++ "\x27 AND \x27" ++ D2 ++ "\x27") := by
  have hdata : (D1 ++ "/" ++ D2).data = D1.data ++ '/' :: D2.data := by
    simp [String.data_append]
  have hsplit : strSplit '/' (D1 ++ "/" ++ D2) = [D1, D2] := by
    unfold strSplit
    rw [hdata, pySplit_append_sep _ _ _ h1, pySplit_no_sep _ _ h2]
    simp
  simp [WFS.build_cql_filter, hdata, pyContainsChar_append_sep, hsplit, pyJoin]

/-- Claim C7: for slash-free date strings, the WFS filter with a date
value D1/D2 generates the clause date BETWEEN quoted D1 AND quoted D2, and
a single slash-free date D generates the clause date equals quoted D. -/
theorem claim_C7 (D1 D2 D : String)
    (h1 : pyContainsChar '/' D1.data = false)
    (h2 : pyContainsChar '/' D2.data = false)
    (h3 : pyContainsChar '/' D.data = false) :
    WFS.build_cql_filter ⟨some (D1 ++ "/" ++ D2), none⟩ =
      .ok ("date BETWEEN \x27" ++ D1 ++ "\x27 AND \x27" ++ D2 ++ "\x27") ∧
    WFS.build_cql_filter ⟨some D, none⟩ = .ok ("date = \x27" ++ D ++ "\x27") :=
  ⟨build_cql_range none D1 D2 h1 h2, build_cql_single none D h3⟩

theorem claim_C7_witness :
    WFS.build_cql_filter ⟨some ("2017-01-01" ++ "/" ++ "2017-12-31"), none⟩ =
      .ok ("date BETWEEN \x272017-01-01\x27 AND \x272017-12-31\x27") ∧
    WFS.build_cql_filter ⟨some "2017-02-26", none⟩ =
      .ok ("date = \x272017-02-26\x27") := by
  have h := claim_C7 "2017-01-01" "2017-12-31" "2017-02-26"
    (by decide) (by decide) (by decide)
  exact ⟨h.1.trans (by rfl), h.2⟩

/-- Claim C3 counterexample: a filter holding both a bbox key and a date
key produces an attribute-filter expression that is exactly the date
clause, with no AND and no trace of the bbox value, refuting the claim
that the bbox clause and the date clause are ANDed together. -/
theorem claim_C3_counterexample :
    WFS.build_cql_filter ⟨some "2020-01-01", some "1,2,3,4"⟩ =
      .ok "date = \x272020-01-01\x27" ∧
    ¬ List.IsInfix (" AND ").data ("date = \x272020-01-01\x27").data ∧
    ¬ List.IsInfix ("1,2,3,4").data ("date = \x272020-01-01\x27").data := by
  refine ⟨by rfl, by decide, by decide⟩

/-- Claim C3 as amended: the bbox key of the filter dictionary is ignored
by build_cql_filter, so a filter holding both keys generates an
attribute-filter expression equal to the date clause alone, whatever the
bbox value is. -/
theorem claim_C3_amended (bb : Option String) (D1 D2 D : String)
    (h1 : pyContainsChar '/' D1.data = false)
    (h2 : pyContainsChar '/' D2.data = false)
    (h3 : pyContainsChar '/' D.data = false) :
    WFS.build_cql_filter ⟨some (D1 ++ "/" ++ D2), bb⟩ =
      .ok ("date BETWEEN \x27" ++ D1 ++ "\x27 AND \x27" ++ D2 ++ "\x27") ∧
    WFS.build_cql_filter ⟨some D, bb⟩ = .ok ("date = \x27" ++ D ++ "\x27") :=
  ⟨build_cql_range bb D1 D2 h1 h2, build_cql_single bb D h3⟩

theorem claim_C3_witness :
    WFS.build_cql_filter ⟨some "2020-01-01", some "1,2,3,4"⟩ =
      .ok ("date = \x272020-01-01\x27") :=
  (claim_C3_amended (some "1,2,3,4") "2020" "2021" "2020-01-01"
    (by decide) (by decide) (by decide)).2

theorem describeAttributes_aux (props : List FtProperty) (a : List FtAttribute)
    (g : Option FtAttribute) :
    props.foldl
      (fun acc p =>
        let attr := WFS.attrOf p
        (acc.1 ++ [attr], if WFS.isGeometryProp p then some attr else acc.2))
      (a, g)
    = (a ++ props.map WFS.attrOf,
       ((props.reverse.find? WFS.isGeometryProp).map WFS.attrOf).or g) := by
  induction props generalizing a g with
  | nil => simp
  | cons p ps ih =>
    simp only [List.foldl_cons, List.map_cons, List.reverse_cons]
    rw [ih]
    simp only [Prod.mk.injEq]
    constructor
    · simp
    · rw [List.find?_append]
      cases hq : ps.reverse.find? WFS.isGeometryProp with
      | some q => simp
      | none =>
        cases hp : WFS.isGeometryProp p <;> simp [List.find?, hp]

/-- Claim C4 counterexample: on a schema with two geometry-typed
attributes, the geometry entry assembled by the describe loop is the
second (last) such attribute, not the first one. -/
theorem claim_C4_counterexample :
    (twoGeomProps.filter WFS.isGeometryProp).length = 2 ∧
    (WFS.describeAttributes twoGeomProps).2 ≠
      some (WFS.attrOf ⟨"geom_a", some "Point", some "gml:Point"⟩) ∧
    (WFS.describeAttributes twoGeomProps).2 =
      some (WFS.attrOf ⟨"geom_b", some "Polygon", some "gml:Polygon"⟩) := by
  decide

/-- Claim C4 as amended: the attribute list of the describe record is the
property list in order, and the geometry entry is the LAST attribute whose
declared type is in the supported GML geometry set (each later match
overwrites the earlier assignment), or absent when no attribute matches. -/
theorem claim_C4_amended (props : List FtProperty) :
    (WFS.describeAttributes props).1 = props.map WFS.attrOf ∧
    (WFS.describeAttributes props).2 =
      (props.reverse.find? WFS.isGeometryProp).map WFS.attrOf := by
  unfold WFS.describeAttributes
  rw [describeAttributes_aux]
  simp

/-- Claim C6: lookup by source id over the loaded adapter list returns an
adapter exactly when one with that id is registered, that adapter is a
registered one carrying the requested id, and an unregistered id yields
the explicit absent value None rather than an exception. -/
theorem claim_C6 (datasources : List SourceAdapter) (id : String) :
    (∀ ds, DataSourceManager.get_datasource_by_id datasources id = some ds →
        ds ∈ datasources ∧ ds.sid = id) ∧
    (DataSourceManager.get_datasource_by_id datasources id = none ↔
        ∀ ds ∈ datasources, ds.sid ≠ id) := by
  induction datasources with
  | nil => simp [DataSourceManager.get_datasource_by_id]
  | cons d rest ih =>
    by_cases hd : d.sid = id
    · constructor
      · intro ds h
        simp [DataSourceManager.get_datasource_by_id, hd] at h
        subst h
        exact ⟨List.mem_cons_self d rest, hd⟩
      · constructor
        · intro h
          simp [DataSourceManager.get_datasource_by_id, hd] at h
        · intro h
          exact absurd hd (h d (List.mem_cons_self d rest))
    · constructor
      · intro ds h
        simp only [DataSourceManager.get_datasource_by_id, if_neg hd] at h
        obtain ⟨hm, hs⟩ := ih.1 ds h
        exact ⟨List.mem_cons_of_mem d hm, hs⟩
      · simp only [DataSourceManager.get_datasource_by_id, if_neg hd]
        rw [ih.2]
        simp [List.forall_mem_cons, hd]

theorem claim_C6_witness :
    DataSourceManager.get_datasource_by_id
      [SourceAdapter.wfs "A" "http://a", SourceAdapter.wcs "B" "http://b"] "ZZZ"
      = none ∧
    SourceAdapter.wcs "B" "http://b" ∈
      [SourceAdapter.wfs "A" "http://a", SourceAdapter.wcs "B" "http://b"] ∧
    (SourceAdapter.wcs "B" "http://b").sid = "B" :=
  ⟨(claim_C6 [SourceAdapter.wfs "A" "http://a", SourceAdapter.wcs "B" "http://b"]
      "ZZZ").2.mpr (by decide),
   (claim_C6 [SourceAdapter.wfs "A" "http://a", SourceAdapter.wcs "B" "http://b"]
      "B").1 (SourceAdapter.wcs "B" "http://b") (by decide)⟩

/-- Claim C8: WCS.get is a pure URL builder: its value is the same
whatever transport oracle is in effect (so no network response can
influence it, and two calls with identical arguments return identical
strings), and its request log is empty (no network access is performed). -/
theorem claim_C8 (u cid : String) (f : Option WcsFilter) (srid : Int)
    (s1 s2 : String → String) :
    WCS.get u cid f srid s1 = WCS.get u cid f srid s2 ∧
    (WCS.get u cid f srid s1).1 = WCS.getURL u cid f srid ∧
    (WCS.get u cid f srid s1).2 = [] :=
  ⟨rfl, rfl, rfl⟩

/-- Claim C9: on a body the XML parser rejects, WCS.list_image returns the
empty list instead of raising, while WFS.list_features fails with the
parse error. -/
theorem claim_C9 (body : String) (parse : String → Except String XmlNode)
    (e : String) (h : parse body = .error e) :
    WCS.list_image (.ok body) parse = .ok [] ∧
    WFS.list_features (.ok body) parse = .error (.parseError e) := by
  constructor
  · simp [WCS.list_image, h]
  · simp [WFS.list_features, h]

theorem claim_C9_witness :
    WCS.list_image (.ok "<broken") (fun _ => .error "syntax error") = .ok [] ∧
    WFS.list_features (.ok "<broken") (fun _ => .error "syntax error") =
      .error (.parseError "syntax error") :=
  claim_C9 "<broken" (fun _ => .error "syntax error") "syntax error" rfl

/-- Claim C10: every entry of a collections listing of any of the three
adapters carries the id fixed at adapter construction. -/
theorem claim_C10 (source_id : String) (names : List String) :
    (∀ e ∈ WFS.collections source_id names, e.id = source_id) ∧
    (∀ e ∈ WCS.collections source_id names, e.id = source_id) ∧
    (∀ e ∈ STAC.collections source_id names, e.id = source_id) := by
  refine ⟨?_, ?_, ?_⟩ <;>
    · intro e he
      simp only [WFS.collections, WCS.collections, STAC.collections,
        List.mem_map] at he
      obtain ⟨l, _, rfl⟩ := he
      rfl

theorem claim_C10_witness :
    (⟨"S", "layer1"⟩ : CollectionRef).id = "S" :=
  (claim_C10 "S" ["layer1", "layer2"]).1 ⟨"S", "layer1"⟩ (by decide)

theorem fetchPages_cons (server : Nat → ServerResp) (ps fuel start total : Nat)
    (acc : List RawFeature) (reqs : List Nat) (page : WfsPage)
    (hs : server start = .ok page) (hne : page.features ≠ []) :
    WFS.fetchPages server ps none (fuel + 1) start total acc reqs =
      WFS.fetchPages server ps none fuel (start + page.features.length)
        (total + page.features.length) (acc ++ page.features) (reqs ++ [start]) := by
  have hemp : page.features.isEmpty = false := by
    simp [List.isEmpty_eq_false, hne]
  simp [WFS.fetchPages, hs, hemp]

theorem fetchPages_break (server : Nat → ServerResp) (ps : Nat)
    (mf : Option Nat) (fuel start total : Nat)
    (acc : List RawFeature) (reqs : List Nat) (page : WfsPage)
    (hs : server start = .ok page) (he : page.features = []) :
    WFS.fetchPages server ps mf (fuel + 1) start total acc reqs =
      some (.ok (acc, page, reqs ++ [start])) := by
  simp [WFS.fetchPages, hs, he]

theorem fetchPages_C1 (server : Nat → ServerResp) (p0 p1 p2 p3 : WfsPage) (k : Nat)
    (h0 : server 0 = .ok p0) (l0 : p0.features.length = 1000)
    (h1 : server 1000 = .ok p1) (l1 : p1.features.length = 1000)
    (h2 : server 2000 = .ok p2) (l2 : p2.features.length = 437)
    (h3 : server 2437 = .ok p3) (l3 : p3.features = []) :
    WFS.fetchPages server 1000 none (k + 4) 0 0 [] [] =
      some (.ok (p0.features ++ (p1.features ++ p2.features), p3,
        [0, 1000, 2000, 2437])) := by
  have ne0 : p0.features ≠ [] := by intro h; rw [h] at l0; simp at l0
  have ne1 : p1.features ≠ [] := by intro h; rw [h] at l1; simp at l1
  have ne2 : p2.features ≠ [] := by intro h; rw [h] at l2; simp at l2
  rw [show k + 4 = (k + 3) + 1 from rfl,
    fetchPages_cons server 1000 (k + 3) 0 0 [] [] p0 h0 ne0, l0]
  simp only [Nat.zero_add, List.nil_append]
  rw [show k + 3 = (k + 2) + 1 from rfl,
    fetchPages_cons server 1000 (k + 2) 1000 1000 p0.features [0] p1 h1 ne1, l1]
  simp only [List.cons_append, List.nil_append]
  norm_num
  rw [show k + 2 = (k + 1) + 1 from rfl,
    fetchPages_cons server 1000 (k + 1) 2000 2000 (p0.features ++ p1.features)
      [0, 1000] p2 h2 ne2, l2]
  norm_num
  rw [fetchPages_break server 1000 none k 2437 2437
      (p0.features ++ (p1.features ++ p2.features)) [0, 1000, 2000] p3 h3 l3]
  rfl

theorem makeGeom_unsupported (ty : String) (c : Coords)
    (h : ty ∉ WFS.supportedGeomTypes) :
    WFS.makeGeom ty c = .error .unsupportedGeometry := by
  simp only [WFS.supportedGeomTypes, List.mem_cons, List.not_mem_nil, or_false,
    not_or] at h
  obtain ⟨n1, n2, n3, n4, n5⟩ := h
  simp [WFS.makeGeom, n1, n2, n3, n4, n5]

theorem polysToPolygons_ok (polys : List Coords)
    (h : ∀ p ∈ polys, ∃ rings, p = Coords.arr rings) :
    ∃ gs, WFS.polysToPolygons polys = .ok gs := by
  induction polys with
  | nil => exact ⟨[], rfl⟩
  | cons p ps ih =>
    obtain ⟨gs, hgs⟩ := ih (fun x hx => h x (List.mem_cons_of_mem _ hx))
    obtain ⟨rings, rfl⟩ := h p (List.mem_cons_self p ps)
    exact ⟨rings.map Geom.polygon ++ gs, by simp [WFS.polysToPolygons, hgs]⟩

theorem makeGeom_ok (ty : String) (c : Coords)
    (hty : ty ∈ WFS.supportedGeomTypes)
    (hwf : WFS.wellFormedCoords ty c = true) :
    ∃ g, WFS.makeGeom ty c = .ok g := by
  simp only [WFS.supportedGeomTypes, List.mem_cons, List.not_mem_nil,
    or_false] at hty
  rcases hty with h | h | h | h | h
  · subst h
    cases c with
    | num n => simp [WFS.wellFormedCoords] at hwf
    | arr cs =>
      match cs with
      | [] => simp [WFS.wellFormedCoords] at hwf
      | [a] => simp [WFS.wellFormedCoords] at hwf
      | a :: b :: t => exact ⟨.point a b, by simp [WFS.makeGeom]⟩
  · subst h
    cases c with
    | num n => simp [WFS.wellFormedCoords] at hwf
    | arr pts => exact ⟨.multiPoint (pts.map Geom.pointSeq), by simp [WFS.makeGeom]⟩
  · subst h
    exact ⟨.lineString c, by simp [WFS.makeGeom]⟩
  · subst h
    cases c with
    | num n => simp [WFS.wellFormedCoords] at hwf
    | arr polys =>
      simp [WFS.wellFormedCoords] at hwf
      have hall : ∀ p ∈ polys, ∃ rings, p = Coords.arr rings := by
        intro p hp
        have hx := hwf p hp
        cases p with
        | num n => simp at hx
        | arr rings => exact ⟨rings, rfl⟩
      obtain ⟨gs, hgs⟩ := polysToPolygons_ok polys hall
      exact ⟨.multiPolygon gs, by simp [WFS.makeGeom, hgs]⟩
  · subst h
    cases c with
    | num n => simp [WFS.wellFormedCoords] at hwf
    | arr cs =>
      match cs with
      | [] => simp [WFS.wellFormedCoords] at hwf
      | r :: rs => exact ⟨.polygon r, by simp [WFS.makeGeom]⟩

theorem flattenFeature_ok (f : RawFeature) (h : GoodFeature f) :
    ∃ ff, WFS.flattenFeature f = .ok ff := by
  obtain ⟨g, hg⟩ := makeGeom_ok _ _ h.1 h.2
  exact ⟨⟨g, f.properties.filter (fun kv => kv.1 != "bbox")⟩,
    by simp [WFS.flattenFeature, hg]⟩

theorem flattenAll_ok (F : List RawFeature) (h : ∀ f ∈ F, GoodFeature f) :
    ∃ rows, WFS.flattenAll F = .ok rows ∧ rows.length = F.length := by
  induction F with
  | nil => exact ⟨[], rfl, rfl⟩
  | cons f fs ih =>
    obtain ⟨ff, hff⟩ := flattenFeature_ok f (h f (List.mem_cons_self f fs))
    obtain ⟨rows, hr, hl⟩ := ih (fun x hx => h x (List.mem_cons_of_mem _ hx))
    exact ⟨ff :: rows, by simp [WFS.flattenAll, hff, hr], by simp [hl]⟩

theorem flattenAll_unsupported (F : List RawFeature)
    (hex : ∃ f ∈ F, f.geometry.type ∉ WFS.supportedGeomTypes)
    (hwf : ∀ f ∈ F, f.geometry.type ∈ WFS.supportedGeomTypes →
        WFS.wellFormedCoords f.geometry.type f.geometry.coordinates = true) :
    WFS.flattenAll F = .error .unsupportedGeometry := by
  induction F with
  | nil => obtain ⟨f, hf, _⟩ := hex; simp at hf
  | cons f fs ih =>
    by_cases hs : f.geometry.type ∈ WFS.supportedGeomTypes
    · obtain ⟨ff, hff⟩ :=
        flattenFeature_ok f ⟨hs, hwf f (List.mem_cons_self f fs) hs⟩
      have hex2 : ∃ g ∈ fs, g.geometry.type ∉ WFS.supportedGeomTypes := by
        obtain ⟨g, hg, hbad⟩ := hex
        rcases List.mem_cons.mp hg with rfl | hg2
        · exact absurd hs hbad
        · exact ⟨g, hg2, hbad⟩
      have hrec := ih hex2 (fun x hx => hwf x (List.mem_cons_of_mem _ hx))
      simp [WFS.flattenAll, hff, hrec]
    · have hfe : WFS.flattenFeature f = .error .unsupportedGeometry := by
        simp [WFS.flattenFeature, makeGeom_unsupported _ _ hs]
      simp [WFS.flattenAll, hfe]

/-- Claim C1: on any page sequence delivering 1000, 1000, 437 and then 0
features, WFS.get_dataset issues exactly 4 page requests, at start offsets
0, 1000, 2000 and 2437 (each round advancing the offset by the count
actually received), terminates on the zero-feature page, and assembles a
result of exactly 2437 records. -/
theorem claim_C1 (server : Nat → ServerResp) (u ft : String) (k : Nat)
    (p0 p1 p2 p3 : WfsPage) (c : Json)
    (hft : ft ≠ "")
    (h0 : server 0 = .ok p0) (l0 : p0.features.length = 1000)
    (h1 : server 1000 = .ok p1) (l1 : p1.features.length = 1000)
    (h2 : server 2000 = .ok p2) (l2 : p2.features.length = 437)
    (h3 : server 2437 = .ok p3) (l3 : p3.features = []) (hc : p3.crs = some c)
    (hgood : ∀ f ∈ p0.features ++ (p1.features ++ p2.features), GoodFeature f) :
    ∃ rows,
      WFS.get_dataset server u ft none none none "json" 1000 4326 (k + 4) =
        some (.ok (⟨rows, "EPSG:" ++ toString (4326 : Int)⟩,
          [0, 1000, 2000, 2437])) ∧
      rows.length = 2437 ∧ ([0, 1000, 2000, 2437] : List Nat).length = 4 := by
  have hloop := fetchPages_C1 server p0 p1 p2 p3 k h0 l0 h1 l1 h2 l2 h3 l3
  obtain ⟨rows, hr, hl⟩ := flattenAll_ok _ hgood
  refine ⟨rows, ?_, ?_, rfl⟩
  · unfold WFS.get_dataset
    rw [if_neg hft]
    simp only [WFS.baseURL]
    rw [hloop]
    simp [hr, hc]
  · rw [hl]
    simp [l0, l1, l2]

theorem claim_C1_witness :
    ∃ rows,
      WFS.get_dataset demoServer "http://host" "layer" none none none "json"
          1000 4326 (0 + 4) =
        some (.ok (⟨rows, "EPSG:" ++ toString (4326 : Int)⟩,
          [0, 1000, 2000, 2437])) ∧
      rows.length = 2437 ∧ ([0, 1000, 2000, 2437] : List Nat).length = 4 := by
  refine claim_C1 demoServer "http://host" "layer" 0
    (pageOf 1000) (pageOf 1000) (pageOf 437) ⟨[], some .null⟩ .null
    (by decide) rfl (by simp [pageOf]) rfl (by simp [pageOf]) rfl
    (by simp [pageOf]) rfl rfl rfl ?_
  intro f hf
  have hf2 : f = ptFeature := by
    simp only [pageOf, List.mem_append] at hf
    rcases hf with h | h | h <;> exact List.eq_of_mem_replicate h
  rw [hf2]
  decide

/-- Claim C2: a page set whose collected features include one with a
geometry kind outside the supported set makes the whole get_dataset call
fail with the unsupported-geometry error (no partial table is returned),
while every supported geometry kind converts to a geometry value. -/
theorem claim_C2 :
    (∀ (server : Nat → ServerResp) (u ft : String) (F : List RawFeature)
        (data : WfsPage) (reqs : List Nat) (fuel : Nat),
      ft ≠ "" →
      WFS.fetchPages server 1000 none fuel 0 0 [] [] =
        some (.ok (F, data, reqs)) →
      (∃ f ∈ F, f.geometry.type ∉ WFS.supportedGeomTypes) →
      (∀ f ∈ F, f.geometry.type ∈ WFS.supportedGeomTypes →
          WFS.wellFormedCoords f.geometry.type f.geometry.coordinates = true) →
      WFS.get_dataset server u ft none none none "json" 1000 4326 fuel =
        some (.error .unsupportedGeometry)) ∧
    (∀ ty c, ty ∈ WFS.supportedGeomTypes →
      WFS.wellFormedCoords ty c = true → ∃ g, WFS.makeGeom ty c = .ok g) := by
  constructor
  · intro server u ft F data reqs fuel hft hloop hex hwf
    unfold WFS.get_dataset
    rw [if_neg hft]
    simp only [WFS.baseURL]
    rw [hloop]
    simp [flattenAll_unsupported F hex hwf]
  · exact makeGeom_ok

theorem claim_C2_witness :
    WFS.get_dataset triServer "http://host" "layer" none none none "json"
        1000 4326 2 =
      some (.error .unsupportedGeometry) ∧
    (∃ g, WFS.makeGeom "Point" (.arr [.num 0, .num 1]) = .ok g) :=
  ⟨claim_C2.1 triServer "http://host" "layer" [triFeature] ⟨[], some .null⟩
      [0, 1] 2 (by decide) rfl (by decide) (by decide),
   claim_C2.2 "Point" (.arr [.num 0, .num 1]) (by decide) (by decide)⟩

/-- Claim C5 evaluated at the failing inputs: CollectionClient.get
dispatches to the get_dataset attribute of the bound adapter, which only
the WFS class defines, so a WCS-bound or STAC-bound collection client
fails with an AttributeError instead of returning the reference result the
facade contract (and the shipped example ex1.py) expects; the WFS-bound
client does delegate to the adapter fetch for the bound collection id. -/
theorem claim_C5 :
    CollectionClient.get (SourceAdapter.wcs "HARMONIZE-WCS" "http://host")
        "bdc_lcc:temp_max_NE_mun_epiweek_ras" (fun _ => .ok ⟨[], none⟩)
        none 10 =
      some (.error .attributeError) ∧
    CollectionClient.get (SourceAdapter.stac "HARMONIZE-STAC" "http://host")
        "collection" (fun _ => .ok ⟨[], none⟩) none 10 =
      some (.error .attributeError) ∧
    CollectionClient.get (SourceAdapter.wfs "HARMONIZE-WFS" "http://host")
        "layer" demoServer none 4 =
      WFS.get_dataset demoServer "http://host" "layer" none none none "json"
        1000 4326 4 :=
  ⟨rfl, rfl, rfl⟩
